import Mathlib

/-!
Shallow embedding of the paste-service core of `src/app.py`: the GCS helper
functions `save_to_gcs` and `get_from_gcs`, and the submit handler
`handle_submit`.  Wall-clock time is modelled as a natural number of seconds;
the ISO-8601 rendering of a timestamp is modelled by an injective
print/parse pair (`tsIso` / `parseIso`).  The GCS bucket is modelled as an
association list from object names to stored blobs, and a blob is either
text that parses as JSON or text on which `json.loads` fails.
-/

set_option autoImplicit false

namespace PasteIt

/-- JSON values as this program stores and reads them: the record fields are
all strings, and `num`/`obj` cover corrupted-but-parseable payloads. -/
inductive Json where
  | str (s : String)
  | num (n : Int)
  | obj (fields : List (String × Json))

/-- A stored object body: either text that `json.loads` accepts (carrying the
parsed value) or text on which `json.loads` raises (`garbage`). -/
inductive Blob where
  | json (j : Json)
  | garbage (raw : String)

/-- Models `json.loads` (line 52): succeeds exactly on well-formed JSON text. -/
def jsonLoads : Blob → Option Json
  | .json j => some j
  | .garbage _ => none

/-- First value bound to `key` in an association list of JSON object fields. -/
def lookupField : List (String × Json) → String → Option Json
  | [], _ => none
  | (k, v) :: rest, key => if k = key then some v else lookupField rest key

/-- Models the Python subscript `data[key]` (line 55): `none` when `data` is
not a dict or the key is missing (KeyError/TypeError, caught at line 63). -/
def Json.getItem : Json → String → Option Json
  | .obj fields, key => lookupField fields key
  | _, _ => none

/-- Models `isoformat` applied to a timestamp (seconds since epoch): an
injective rendering of the time as a decimal string. -/
def tsIso (n : Nat) : String := String.mk ((Nat.digits 10 n).map Nat.digitChar)

/-- Models `datetime.fromisoformat` on a string (line 55): recovers the
timestamp from its rendering, failing on any string that is not one. -/
def parseIso (s : String) : Option Nat :=
  if s.data.all Char.isDigit then
    some (Nat.ofDigits 10 (s.data.map fun c => c.toNat - 48))
  else none

/-- Models `datetime.fromisoformat(data['expires_at'])`: the argument must be
a string (a non-string raises TypeError, caught at line 63). -/
def fromisoformat : Json → Option Nat
  | .str s => parseIso s
  | _ => none

/-- The GCS bucket contents: object name to stored blob, newest first. -/
abbrev GcsState := List (String × Blob)

/-- First blob stored under `key`, if any. -/
def lookupObj : GcsState → String → Option Blob
  | [], _ => none
  | (k, b) :: rest, key => if k = key then some b else lookupObj rest key

/-- Outcomes the GCS client signals by exception type: `notFound` (the
`google.cloud.exceptions.NotFound` caught at line 61) when no object exists
under the key, `storageUnavailable` (any other exception, caught at line 63)
on a transport/auth/quota failure. -/
inductive GcsErr where
  | notFound
  | storageUnavailable

/-- Modelled from the spec: the GCS client call `blob.download_as_text()`
(line 51) is library code outside `src/`; per the spec's Store contract it
returns the stored blob, signals `NotFound` when no object exists under the
key, and signals a distinct failure on transport/auth/quota trouble (the
`fault` flag injects such a failure).  A read never mutates the bucket. -/
def download (st : GcsState) (fault : Bool) (key : String) :
    Except GcsErr Blob × GcsState :=
  if fault then (Except.error GcsErr.storageUnavailable, st)
  else
    match lookupObj st key with
    | some b => (Except.ok b, st)
    | none => (Except.error GcsErr.notFound, st)

/-- Modelled from the spec: the GCS client call `blob.upload_from_string`
(line 40) is library code outside `src/`; it durably writes the blob under
the key (silently overwriting) or fails with a transport error. -/
def upload (st : GcsState) (fault : Bool) (key : String) (b : Blob) :
    Except GcsErr Unit × GcsState :=
  if fault then (Except.error GcsErr.storageUnavailable, st)
  else (Except.ok (), (key, b) :: st)

/-- Embeds `save_to_gcs` (lines 34-43): serialize `data` and upload it under
the object name `paste_id + ".json"`. -/
def save_to_gcs (st : GcsState) (fault : Bool) (paste_id : String)
    (data : Json) : Except GcsErr Unit × GcsState :=
  upload st fault (paste_id ++ ".json") (Blob.json data)

/-- The body of `get_from_gcs` after the download (lines 51-65): parse the
text as JSON, extract `expires_at`, parse it, and return `none` on any
exception (the two except-clauses, lines 61-65) or when `now > expires_at`
(line 56); otherwise return the parsed record (line 60). -/
def readRecord (r : Except GcsErr Blob) (now : Nat) : Option Json :=
  match r with
  | Except.error _ => none
  | Except.ok blob =>
    match jsonLoads blob with
    | none => none
    | some data =>
      match data.getItem "expires_at" with
      | none => none
      | some v =>
        match fromisoformat v with
        | none => none
        | some expires_at =>
          if expires_at < now then none else some data

/-- Embeds `get_from_gcs` (lines 45-65): download the object named
`paste_id + ".json"` and run the read pipeline on the result; the second
component threads the store state through the call. -/
def get_from_gcs (st : GcsState) (fault : Bool) (now : Nat)
    (paste_id : String) : Option Json × GcsState :=
  (readRecord (download st fault (paste_id ++ ".json")).1 now,
   (download st fault (paste_id ++ ".json")).2)

/-- The user-visible outcome of a submit (lines 118-141): the empty-snippet
warning, navigation to the fresh paste, or the upload-failed notification. -/
inductive SubmitOutcome where
  | emptyWarning
  | navigated (pid : String)
  | uploadFailed

/-- Models the Python slice `s[:n]`: the first `n` characters. -/
def strTake (s : String) (n : Nat) : String := String.mk (s.data.take n)

/-- Models the truthiness test `not editor.value.strip()` (line 120): the
stripped text is empty exactly when every character is whitespace. -/
def stripEmpty (code : String) : Bool := code.data.all Char.isWhitespace

/-- Embeds `handle_submit` (lines 118-141).  `editorValue` is the editor's
text (`none` when no editor exists for the client), `uuid4` the fresh UUID
string, `now` the wall clock at the call.  The empty check uses the trimmed
text; the stored payload keeps the untrimmed text. -/
def handle_submit (st : GcsState) (fault : Bool) (now : Nat)
    (editorValue : Option String) (lang : String) (uuid4 : String) :
    SubmitOutcome × GcsState :=
  match editorValue with
  | none => (SubmitOutcome.emptyWarning, st)
  | some code =>
    if stripEmpty code then (SubmitOutcome.emptyWarning, st)
    else
      let pid := strTake uuid4 8
      let expiry := tsIso (now + 30 * 86400)
      let payload := Json.obj
        [("id", Json.str pid), ("code", Json.str code),
         ("lang", Json.str lang), ("expires_at", Json.str expiry)]
      match save_to_gcs st fault pid payload with
      | (Except.ok _, st') => (SubmitOutcome.navigated pid, st')
      | (Except.error _, st') => (SubmitOutcome.uploadFailed, st')

/-! Helper lemmas for the timestamp codec. -/

theorem digitChar_isDigit : ∀ d, d < 10 → (Nat.digitChar d).isDigit = true := by
  decide

theorem digitChar_toNat : ∀ d, d < 10 → (Nat.digitChar d).toNat - 48 = d := by
  decide

/-- The timestamp rendering parses back to the timestamp it renders. -/
theorem parseIso_tsIso (n : Nat) : parseIso (tsIso n) = some n := by
  have hlt : ∀ d ∈ Nat.digits 10 n, d < 10 := fun d hd =>
    Nat.digits_lt_base (by norm_num) hd
  have hall : ((Nat.digits 10 n).map Nat.digitChar).all Char.isDigit = true := by
    rw [List.all_eq_true]
    intro c hc
    rcases List.mem_map.mp hc with ⟨d, hd, rfl⟩
    exact digitChar_isDigit d (hlt d hd)
  have hmap : ((Nat.digits 10 n).map Nat.digitChar).map (fun c => c.toNat - 48)
      = Nat.digits 10 n := by
    rw [List.map_map]
    calc (Nat.digits 10 n).map ((fun c : Char => c.toNat - 48) ∘ Nat.digitChar)
        = (Nat.digits 10 n).map id := by
          apply List.map_congr_left
          intro d hd
          exact digitChar_toNat d (hlt d hd)
      _ = Nat.digits 10 n := List.map_id _
  unfold parseIso tsIso
  simp only [hall, if_true, hmap, Nat.ofDigits_digits]

/-! Helper lemmas about the store operations. -/

theorem download_snd (st : GcsState) (fault : Bool) (key : String) :
    (download st fault key).2 = st := by
  unfold download
  split
  · rfl
  · split <;> rfl

theorem download_fst_false (st : GcsState) (key : String) :
    (download st false key).1
      = match lookupObj st key with
        | some b => Except.ok b
        | none => Except.error GcsErr.notFound := by
  unfold download
  simp only [Bool.false_eq_true, if_false]
  cases lookupObj st key <;> rfl

theorem handle_submit_ok (st : GcsState) (now : Nat)
    (code lang uuid4 : String) (h : stripEmpty code = false) :
    handle_submit st false now (some code) lang uuid4
      = (SubmitOutcome.navigated (strTake uuid4 8),
         (strTake uuid4 8 ++ ".json",
          Blob.json (Json.obj
            [("id", Json.str (strTake uuid4 8)), ("code", Json.str code),
             ("lang", Json.str lang),
             ("expires_at", Json.str (tsIso (now + 30 * 86400)))])) :: st) := by
  unfold handle_submit save_to_gcs upload
  simp only [h, Bool.false_eq_true, if_false]

theorem get_from_gcs_eval (st : GcsState) (pid : String) (rec : Json)
    (e now : Nat)
    (hlook : lookupObj st (pid ++ ".json") = some (Blob.json rec))
    (hexp : rec.getItem "expires_at" = some (Json.str (tsIso e))) :
    (get_from_gcs st false now pid).1
      = if e < now then none else some rec := by
  simp only [get_from_gcs, download_fst_false, hlook, readRecord, jsonLoads,
    hexp, fromisoformat, parseIso_tsIso]

theorem readRecord_ok_none (b : Blob) (now : Nat)
    (hbad : ((jsonLoads b).bind fun d =>
        (d.getItem "expires_at").bind fromisoformat) = none) :
    readRecord (Except.ok b) now = none := by
  cases hj : jsonLoads b with
  | none => simp [readRecord, hj]
  | some data =>
    cases hg : data.getItem "expires_at" with
    | none => simp [readRecord, hj, hg]
    | some v =>
      have hv : fromisoformat v = none := by
        rw [hj] at hbad
        simp only [Option.some_bind, hg] at hbad
        exact hbad
      simp [readRecord, hj, hg, hv]

/-! The claims. -/

/-- C1: a successful submit of a non-empty (after stripping) snippet followed
immediately by a retrieve of the returned id yields the record with the same
`code` and `lang`, and an `expires_at` that renders, and parses back to,
create-time plus 30 days. -/
theorem create_then_retrieve (st : GcsState) (now : Nat)
    (code lang uuid4 : String) (h : stripEmpty code = false) :
    ∃ pid st', handle_submit st false now (some code) lang uuid4
        = (SubmitOutcome.navigated pid, st') ∧
      ∃ rec, (get_from_gcs st' false now pid).1 = some rec ∧
        rec.getItem "code" = some (Json.str code) ∧
        rec.getItem "lang" = some (Json.str lang) ∧
        rec.getItem "expires_at" = some (Json.str (tsIso (now + 30 * 86400))) ∧
        fromisoformat (Json.str (tsIso (now + 30 * 86400)))
          = some (now + 30 * 86400) := by
  have hnow : ¬ (now + 30 * 86400 < now) := by omega
  refine ⟨strTake uuid4 8,
    (strTake uuid4 8 ++ ".json",
      Blob.json (Json.obj
        [("id", Json.str (strTake uuid4 8)), ("code", Json.str code),
         ("lang", Json.str lang),
         ("expires_at", Json.str (tsIso (now + 30 * 86400)))])) :: st,
    handle_submit_ok st now code lang uuid4 h,
    Json.obj
      [("id", Json.str (strTake uuid4 8)), ("code", Json.str code),
       ("lang", Json.str lang),
       ("expires_at", Json.str (tsIso (now + 30 * 86400)))],
    ?_, ?_, ?_, ?_, ?_⟩
  · rw [get_from_gcs_eval
      ((strTake uuid4 8 ++ ".json",
        Blob.json (Json.obj
          [("id", Json.str (strTake uuid4 8)), ("code", Json.str code),
           ("lang", Json.str lang),
           ("expires_at", Json.str (tsIso (now + 30 * 86400)))])) :: st)
      (strTake uuid4 8)
      (Json.obj
        [("id", Json.str (strTake uuid4 8)), ("code", Json.str code),
         ("lang", Json.str lang),
         ("expires_at", Json.str (tsIso (now + 30 * 86400)))])
      (now + 30 * 86400) now (by simp [lookupObj])
      (by simp [Json.getItem, lookupField])]
    simp [hnow]
  · simp [Json.getItem, lookupField]
  · simp [Json.getItem, lookupField]
  · simp [Json.getItem, lookupField]
  · simp [fromisoformat, parseIso_tsIso]

theorem create_then_retrieve_witness :
    stripEmpty "SELECT 1;" = false ∧
    (∃ pid st', handle_submit [] false 0 (some "SELECT 1;") "sql"
          "abcd1234-e5f6-7890-abcd-ef0123456789"
        = (SubmitOutcome.navigated pid, st') ∧
      ∃ rec, (get_from_gcs st' false 0 pid).1 = some rec ∧
        rec.getItem "code" = some (Json.str "SELECT 1;") ∧
        rec.getItem "lang" = some (Json.str "sql") ∧
        rec.getItem "expires_at" = some (Json.str (tsIso (0 + 30 * 86400))) ∧
        fromisoformat (Json.str (tsIso (0 + 30 * 86400)))
          = some (0 + 30 * 86400)) :=
  ⟨by decide, create_then_retrieve [] 0 "SELECT 1;" "sql"
    "abcd1234-e5f6-7890-abcd-ef0123456789" (by decide)⟩

/-- C2, counterexample: the claim says a record is gone once `now >=
expires_at`, but the source (line 56) uses the strict test `now >
expires_at`, so at `now = expires_at` (here both 100) the record is still
returned. -/
theorem expiry_at_boundary_counterexample :
    fromisoformat (Json.str (tsIso 100)) = some 100 ∧
    (get_from_gcs
        [("abc" ++ ".json",
          Blob.json (Json.obj
            [("code", Json.str "x"), ("expires_at", Json.str (tsIso 100))]))]
        false 100 "abc").1
      = some (Json.obj
          [("code", Json.str "x"), ("expires_at", Json.str (tsIso 100))]) := by
  constructor
  · simp [fromisoformat, parseIso_tsIso]
  · simp [get_from_gcs, readRecord, download_fst_false, lookupObj, jsonLoads,
      Json.getItem, lookupField, fromisoformat, parseIso_tsIso]

/-- C2, amended: for a stored record with a well-formed `expires_at`, the
retrieve returns the record exactly when `now <= expires_at` and `none`
exactly when `now > expires_at`; the stored object itself is untouched
either way. -/
theorem expiry_enforced_on_read (st : GcsState) (pid : String) (rec : Json)
    (e now : Nat)
    (hlook : lookupObj st (pid ++ ".json") = some (Blob.json rec))
    (hexp : rec.getItem "expires_at" = some (Json.str (tsIso e))) :
    (get_from_gcs st false now pid).1
      = (if e < now then none else some rec) ∧
    (get_from_gcs st false now pid).2 = st := by
  constructor
  · simp [get_from_gcs, readRecord, download_fst_false, hlook, jsonLoads,
      hexp, fromisoformat, parseIso_tsIso]
  · simp [get_from_gcs, download_snd]

theorem expiry_enforced_on_read_witness :
    lookupObj [("abc" ++ ".json",
        Blob.json (Json.obj [("expires_at", Json.str (tsIso 100))]))]
        ("abc" ++ ".json")
      = some (Blob.json (Json.obj [("expires_at", Json.str (tsIso 100))])) ∧
    (Json.obj [("expires_at", Json.str (tsIso 100))]).getItem "expires_at"
      = some (Json.str (tsIso 100)) ∧
    ((get_from_gcs [("abc" ++ ".json",
          Blob.json (Json.obj [("expires_at", Json.str (tsIso 100))]))]
        false 200 "abc").1
      = (if 100 < 200 then none else
          some (Json.obj [("expires_at", Json.str (tsIso 100))])) ∧
    (get_from_gcs [("abc" ++ ".json",
          Blob.json (Json.obj [("expires_at", Json.str (tsIso 100))]))]
        false 200 "abc").2
      = [("abc" ++ ".json",
          Blob.json (Json.obj [("expires_at", Json.str (tsIso 100))]))]) :=
  ⟨by simp [lookupObj], by simp [Json.getItem, lookupField],
    expiry_enforced_on_read _ "abc" _ 100 200 (by simp [lookupObj])
      (by simp [Json.getItem, lookupField])⟩

/-- C3: submitting an empty or all-whitespace snippet produces the
empty-snippet warning and leaves the store untouched, whatever the store
would have done (`fault` arbitrary): no store call is made. -/
theorem empty_submit_no_store (st : GcsState) (fault : Bool) (now : Nat)
    (code lang uuid4 : String) (h : stripEmpty code = true) :
    handle_submit st fault now (some code) lang uuid4
      = (SubmitOutcome.emptyWarning, st) := by
  simp [handle_submit, h]

theorem empty_submit_no_store_witness :
    stripEmpty "   " = true ∧
    handle_submit [] true 7 (some "   ") "python" "u-1"
      = (SubmitOutcome.emptyWarning, []) :=
  ⟨by decide, empty_submit_no_store [] true 7 "   " "python" "u-1" (by decide)⟩

/-- C4: the store's read signals a transport/auth/quota failure
(`storageUnavailable`) distinctly from the `notFound` it signals when no
object exists under the key. -/
theorem store_get_distinguishes_failures (st : GcsState) (key : String)
    (habs : lookupObj st key = none) :
    (download st true key).1 = Except.error GcsErr.storageUnavailable ∧
    (download st false key).1 = Except.error GcsErr.notFound ∧
    GcsErr.storageUnavailable ≠ GcsErr.notFound := by
  refine ⟨rfl, ?_, fun hc => GcsErr.noConfusion hc⟩
  rw [download_fst_false, habs]

theorem store_get_distinguishes_failures_witness :
    lookupObj [] "x.json" = none ∧
    ((download [] true "x.json").1
        = Except.error GcsErr.storageUnavailable ∧
      (download [] false "x.json").1 = Except.error GcsErr.notFound ∧
      GcsErr.storageUnavailable ≠ GcsErr.notFound) :=
  ⟨rfl, store_get_distinguishes_failures [] "x.json" rfl⟩

/-- C5: when the stored object exists but its parse pipeline fails
(unparseable text, missing `expires_at`, or a malformed `expires_at`
value), the retrieve returns `none` rather than propagating the error. -/
theorem malformed_record_reads_as_absent (st : GcsState) (now : Nat)
    (pid : String) (b : Blob)
    (hlook : lookupObj st (pid ++ ".json") = some b)
    (hbad : ((jsonLoads b).bind fun d =>
        (d.getItem "expires_at").bind fromisoformat) = none) :
    (get_from_gcs st false now pid).1 = none := by
  simp only [get_from_gcs, download_fst_false, hlook]
  exact readRecord_ok_none b now hbad

theorem malformed_record_reads_as_absent_witness :
    lookupObj [("zz" ++ ".json", Blob.garbage "oops")] ("zz" ++ ".json")
      = some (Blob.garbage "oops") ∧
    ((jsonLoads (Blob.garbage "oops")).bind fun d =>
        (d.getItem "expires_at").bind fromisoformat) = none ∧
    (get_from_gcs [("zz" ++ ".json", Blob.garbage "oops")] false 5 "zz").1
      = none :=
  ⟨by simp [lookupObj], rfl,
    malformed_record_reads_as_absent [("zz" ++ ".json", Blob.garbage "oops")]
      5 "zz" (Blob.garbage "oops") (by simp [lookupObj]) rfl⟩

/-- C6: retrieving an id under which no object is stored returns `none`. -/
theorem absent_id_reads_as_absent (st : GcsState) (now : Nat) (pid : String)
    (habs : lookupObj st (pid ++ ".json") = none) :
    (get_from_gcs st false now pid).1 = none := by
  simp [get_from_gcs, readRecord, download_fst_false, habs]

theorem absent_id_reads_as_absent_witness :
    lookupObj [] ("doesnotexist" ++ ".json") = none ∧
    (get_from_gcs [] false 3 "doesnotexist").1 = none :=
  ⟨rfl, absent_id_reads_as_absent [] 3 "doesnotexist" rfl⟩

/-- C7: when the store write fails during a submit of a non-empty snippet,
the outcome is the upload-failed notification (which carries no id), and the
store state is unchanged: the write is not retried. -/
theorem upload_failure_surfaced (st : GcsState) (now : Nat)
    (code lang uuid4 : String) (h : stripEmpty code = false) :
    handle_submit st true now (some code) lang uuid4
      = (SubmitOutcome.uploadFailed, st) := by
  simp [handle_submit, h, save_to_gcs, upload]

theorem upload_failure_surfaced_witness :
    stripEmpty "print(1)" = false ∧
    handle_submit [] true 9 (some "print(1)") "python" "u-2"
      = (SubmitOutcome.uploadFailed, []) :=
  ⟨by decide, upload_failure_surfaced [] 9 "print(1)" "python" "u-2"
    (by decide)⟩

/-- C8: a paste is persisted as exactly one object under the key
`id + ".json"`, that key holds exactly the written record, and the retrieve
of an id depends only on what is stored under that same key, so the record
written under an id is the one read back under it. -/
theorem put_get_share_key_scheme (st : GcsState) (pid : String) (data : Json)
    (now : Nat) :
    (save_to_gcs st false pid data).2 = (pid ++ ".json", Blob.json data) :: st ∧
    lookupObj (save_to_gcs st false pid data).2 (pid ++ ".json")
      = some (Blob.json data) ∧
    ∀ st1 st2 : GcsState,
      lookupObj st1 (pid ++ ".json") = lookupObj st2 (pid ++ ".json") →
      (get_from_gcs st1 false now pid).1 = (get_from_gcs st2 false now pid).1 := by
  refine ⟨by simp [save_to_gcs, upload], by simp [save_to_gcs, upload, lookupObj], ?_⟩
  intro st1 st2 hsame
  simp only [get_from_gcs, download_fst_false, hsame]

theorem put_get_share_key_scheme_witness :
    (save_to_gcs [] false "ab" (Json.str "x")).2
      = [("ab" ++ ".json", Blob.json (Json.str "x"))] ∧
    lookupObj (save_to_gcs [] false "ab" (Json.str "x")).2 ("ab" ++ ".json")
      = some (Blob.json (Json.str "x")) ∧
    (get_from_gcs [("ab" ++ ".json", Blob.json (Json.str "x"))]
        false 4 "ab").1
      = (get_from_gcs [("zz", Blob.garbage "g"),
          ("ab" ++ ".json", Blob.json (Json.str "x"))] false 4 "ab").1 :=
  ⟨(put_get_share_key_scheme [] "ab" (Json.str "x") 4).1,
    (put_get_share_key_scheme [] "ab" (Json.str "x") 4).2.1,
    (put_get_share_key_scheme [] "ab" (Json.str "x") 4).2.2 _ _ rfl⟩

/-- C9: the id of a successful submit is the first 8 characters of the fresh
UUID string, so whenever the UUID has at least 8 characters (a UUID string
has 36) the returned id has length exactly 8. -/
theorem submit_id_is_uuid_prefix_of_length_8 (st : GcsState) (now : Nat)
    (code lang uuid4 : String) (hcode : stripEmpty code = false)
    (hlen : 8 ≤ uuid4.length) :
    (handle_submit st false now (some code) lang uuid4).1
      = SubmitOutcome.navigated (strTake uuid4 8) ∧
    (strTake uuid4 8).length = 8 := by
  constructor
  · rw [handle_submit_ok st now code lang uuid4 hcode]
  · have hdata : 8 ≤ uuid4.data.length := hlen
    show (String.mk (uuid4.data.take 8)).length = 8
    rw [show (String.mk (uuid4.data.take 8)).length
        = (uuid4.data.take 8).length from rfl, List.length_take]
    omega

theorem submit_id_is_uuid_prefix_of_length_8_witness :
    stripEmpty "SELECT 2;" = false ∧
    8 ≤ ("abcd1234-e5f6-7890-abcd-ef0123456789" : String).length ∧
    ((handle_submit [] false 1 (some "SELECT 2;") "sql"
          "abcd1234-e5f6-7890-abcd-ef0123456789").1
        = SubmitOutcome.navigated
            (strTake "abcd1234-e5f6-7890-abcd-ef0123456789" 8) ∧
      (strTake "abcd1234-e5f6-7890-abcd-ef0123456789" 8).length = 8) :=
  ⟨by decide, by decide,
    submit_id_is_uuid_prefix_of_length_8 [] 1 "SELECT 2;" "sql"
      "abcd1234-e5f6-7890-abcd-ef0123456789" (by decide) (by decide)⟩

/-- C10: the retrieve is a pure read: for every store state, fault mode,
time and id, the store state after `get_from_gcs` is the state before it —
also when the record is expired, malformed or absent. -/
theorem retrieve_is_pure_read (st : GcsState) (fault : Bool) (now : Nat)
    (pid : String) :
    (get_from_gcs st fault now pid).2 = st := by
  simp [get_from_gcs, download_snd]

end PasteIt
